import Mathlib

/-!
Verification development for the meeting-suggestion scheduling logic of the
google-workspace MCP server.  The program's authoritative source is
`src/index.ts`; the repository also contains two older file variants of the
same server (here called variant 0 and variant 1) whose scheduling code
differs in places, noted where relevant.

Instants are modelled as integers: milliseconds in the request-timezone local
frame (the frame in which the source's `toLocaleString`/`setHours` tricks
operate).  Day arithmetic (`setDate`) is modelled as adding 86400000 ms, and
`setHours(0,0,0,0)` as flooring to a multiple of 86400000; DST-induced
irregular day lengths are outside the model.
-/

/-- A half-open time interval in milliseconds.  Transcribes the source's
`{ start: Date, end: Date }` pairs; `end` is a Lean keyword, so the field is
named `stop`. -/
structure TimeInterval where
  start : Int
  stop : Int
deriving DecidableEq, Repr

/-- Loop body of `findFreeSlots` (src/index.ts lines 207-231): walk the
sorted busy list with a cursor `pointer`.  Before each busy interval, if
`pointer < busyStart` and the gap is at least the meeting length, push ONE
slot `[pointer, pointer + L)`; then advance the cursor past the busy
interval.  After the last busy interval the same one-slot rule is applied to
the gap up to `dayEnd`.  `L` is `meetingLengthMinutes * 60000`; the source's
test `gapMinutes >= meetingLengthMinutes` with `gapMinutes = gapMs / 60000`
(exact JS division) is equivalent to `gapMs ≥ L`. -/
def packLoop (dayEnd L : Int) : List TimeInterval → Int → List TimeInterval
  | [], pointer =>
    if pointer < dayEnd then
      if dayEnd - pointer ≥ L then [⟨pointer, pointer + L⟩] else []
    else []
  | busy :: rest, pointer =>
    let pre : List TimeInterval :=
      if pointer < busy.start then
        if busy.start - pointer ≥ L then [⟨pointer, pointer + L⟩] else []
      else []
    let pointer' := if pointer < busy.stop then busy.stop else pointer
    pre ++ packLoop dayEnd L rest pointer'

/-- Ordering used by the source's `.sort((a, b) => new Date(a.start).getTime()
- new Date(b.start).getTime())`: ascending by interval start. -/
def busyLE (a b : TimeInterval) : Prop := a.start ≤ b.start

instance : DecidableRel busyLE := fun a b => inferInstanceAs (Decidable (a.start ≤ b.start))

instance : IsTotal TimeInterval busyLE := ⟨fun a b => le_total a.start b.start⟩

instance : IsTrans TimeInterval busyLE := ⟨fun _ _ _ h h' => le_trans h h'⟩

/-- Transcription of `findFreeSlots` (src/index.ts lines 194-234): keep the
busy intervals that intersect the working window `[dayStart, dayEnd)`, sort
them by start time ascending, then run the cursor loop.  The sort is modelled
with `List.insertionSort`, which produces the same ascending-by-start order as
the source's stable `Array.sort`; the order of intervals sharing a start time
is not observable in any property proved here. -/
def findFreeSlots (busySlots : List TimeInterval) (dayStart dayEnd : Int)
    (meetingLengthMinutes : Int) : List TimeInterval :=
  let sortedBusySlots :=
    List.insertionSort busyLE
      (busySlots.filter fun slot => slot.start < dayEnd && slot.stop > dayStart)
  packLoop dayEnd (meetingLengthMinutes * 60000) sortedBusySlots dayStart

example : findFreeSlots [] 0 28800000 60 = [⟨0, 3600000⟩] := by decide

example :
    findFreeSlots [⟨32400000 + 3600000, 32400000 + 7200000⟩] 32400000 61200000 60 =
      [⟨32400000, 36000000⟩, ⟨39600000, 43200000⟩] := by decide

/-- Milliseconds in one minute, hour, and calendar day. -/
def msPerMinute : Int := 60000

/-- Milliseconds in one hour (used by the `setHours(h, 0, 0, 0)` model). -/
def msPerHour : Int := 3600000

/-- Milliseconds in one calendar day (used by the `setDate(d + 1)` model). -/
def msPerDay : Int := 86400000

/-- Model of JavaScript `args?.field || default` on a numeric field: `none`
models an absent field, and a present `0` is falsy in JS and therefore also
replaced by the default.  All other numbers (including negatives) are truthy
and kept. -/
def jsOrNum (v : Option Int) (d : Int) : Int :=
  match v with
  | none => d
  | some x => if x = 0 then d else x

/-- Model of JavaScript `args?.field || default` on a string field: an absent
field or the empty string (falsy in JS) yields the default. -/
def jsOrStr (v : Option String) (d : String) : String :=
  match v with
  | none => d
  | some x => if x = "" then d else x

/-- Model of JavaScript `list.slice(0, k)`: a nonnegative `k` keeps the first
`k` elements (clamped to the length); a negative `k` is counted from the end
of the list. -/
def jsSliceTo (k : Int) (l : List α) : List α :=
  l.take (if 0 ≤ k then k.toNat else l.length - k.natAbs)

/-- Raw busy entry as reported by the provider (src/index.ts lines 153-155):
either endpoint may be missing, in which case the entry is discarded by the
handler's filter `!!slot.start && !!slot.end`. -/
structure RawSlot where
  start : Option Int
  stop : Option Int
deriving DecidableEq, Repr

/-- Flattened request arguments of the `meeting_suggestion` tool.  Numeric
fields are modelled as `Option Int` (absent vs present); `startDate` is the
parsed instant of the request's ISO start-date string, in request-timezone
local milliseconds. -/
structure Args where
  meetingLengthMinutes : Option Int := none
  workingHoursStart : Option Int := none
  workingHoursEnd : Option Int := none
  timezone : Option String := none
  slotsPerDay : Option Int := none
  daysToSearch : Option Int := none
  maxDaysToLookAhead : Option Int := none
  bankHolidays : Option (List String) := none
  calendarIds : Option (List String) := none
  startDate : Option Int := none
deriving DecidableEq, Repr

/-- Resolved configuration after the defaulting block. -/
structure Config where
  meetingLength : Int
  workStartHour : Int
  workEndHour : Int
  timezone : String
  slotsPerDay : Int
  daysToSearch : Int
  maxDaysToLookAhead : Int
  bankHolidays : List String
  calendarIds : List String
deriving DecidableEq, Repr

/-- Transcription of the defaulting block (src/index.ts lines 126-134).  The
`||` defaults on the two list fields keep a present empty list, because an
empty array is truthy in JS. -/
def resolveConfig (args : Args) : Config where
  meetingLength := jsOrNum args.meetingLengthMinutes 60
  workStartHour := jsOrNum args.workingHoursStart 9
  workEndHour := jsOrNum args.workingHoursEnd 17
  timezone := jsOrStr args.timezone ("America/Sao_Paulo")
  slotsPerDay := jsOrNum args.slotsPerDay 1
  daysToSearch := jsOrNum args.daysToSearch 3
  maxDaysToLookAhead := jsOrNum args.maxDaysToLookAhead 30
  bankHolidays := args.bankHolidays.getD []
  calendarIds := args.calendarIds.getD ["primary"]

/-- Transcription of start-date resolution (src/index.ts lines 136-139): take
the explicit start instant if supplied, otherwise the current instant `now`;
add one day only in the no-explicit-date case (`setDate(getDate() + (args?.
startDate ? 0 : 1))`); then floor to local midnight (`setHours(0, 0, 0, 0)`).
Instants are request-timezone local milliseconds, the frame the source
reaches through its `toLocaleString('en-US', { timeZone })` conversion, so
flooring to a multiple of `msPerDay` is exactly the `setHours` step. -/
def resolveStartDate (argsStartDate : Option Int) (now : Int) : Int :=
  let startDate0 := argsStartDate.getD now
  let startDate1 := startDate0 + (if argsStartDate.isSome then 0 else 1) * msPerDay
  startDate1 - startDate1 % msPerDay

/-- The structured error class the specification's error taxonomy calls
ConfigurationError. -/
inductive ConfigError where
  | configurationError
deriving DecidableEq, Repr

/-- The single free/busy fetch issued by the handler (src/index.ts lines
144-151). -/
structure FetchRequest where
  timeMin : Int
  timeMax : Int
  timezone : String
  items : List String
deriving DecidableEq, Repr

/-- Transcription of the handler from entry to the free/busy fetch
(src/index.ts lines 124-151): resolve defaults, resolve the start date,
compute `endDate = startDate + maxDaysToLookAhead days`, and issue the fetch.
The `Except` layer expresses the two outcomes the specification allows for
this phase; the source performs no request validation whatsoever, so the
result is always `ok` and carries the fetch request that is issued. -/
def handleMeetingSuggestionPre (args : Args) (now : Int) :
    Except ConfigError FetchRequest :=
  let c := resolveConfig args
  let startDate := resolveStartDate args.startDate now
  let endDate := startDate + c.maxDaysToLookAhead * msPerDay
  .ok { timeMin := startDate, timeMax := endDate, timezone := c.timezone,
        items := c.calendarIds }

/-- Fixed data of one day-walk (src/index.ts lines 157-185).  Days are indexed
by their offset `d` from the resolved start date; `startWeekday` is the
JS-`getDay` weekday (0 = Sunday .. 6 = Saturday) of the start date, so day `d`
has weekday `(startWeekday + d) % 7`; `fmt d` abstracts the source's
`dayPointer.toISOString().split('T')[0]` date formatting of day `d`; `endDay`
is `maxDaysToLookAhead`, since `endDate` lies exactly that many days after the
start and the walk compares midnight pointers (`dayPointer < endDate`). -/
structure WalkCtx where
  startWeekday : Nat
  fmt : Nat → String
  bankHolidays : List String
  busySlots : List TimeInterval
  startMs : Int
  workStartHour : Int
  workEndHour : Int
  meetingLength : Int
  slotsPerDay : Int
  daysToSearch : Int
  endDay : Int

/-- Eligibility test of the day-walk (src/index.ts line 166): not Sunday (0),
not Saturday (6), and not a listed bank holiday. -/
def eligible (c : WalkCtx) (d : Nat) : Bool :=
  let dayOfWeek := (c.startWeekday + d) % 7
  dayOfWeek != 0 && dayOfWeek != 6 && !(c.bankHolidays.contains (c.fmt d))

/-- Working-window opening instant of day `d`: that day at
`workingHoursStart:00` local time (src/index.ts lines 167-168). -/
def dayStartMs (c : WalkCtx) (d : Nat) : Int :=
  c.startMs + d * msPerDay + c.workStartHour * msPerHour

/-- Working-window closing instant of day `d`: that day at
`workingHoursEnd:00` local time (src/index.ts lines 170-171). -/
def dayEndMs (c : WalkCtx) (d : Nat) : Int :=
  c.startMs + d * msPerDay + c.workEndHour * msPerHour

/-- Transcription of the day-walk loop (src/index.ts lines 162-185).  The
recursion argument `rem` counts the days left until `dayPointer` would reach
`endDate`; the loop guard `daysWithSlotsFound < daysToSearch && dayPointer <
endDate` appears verbatim as the `if` condition.  The result carries the
accumulated suggestions, the final `daysWithSlotsFound` counter, and — as a
ghost observation used only by theorems — the list of day indices for which
the loop body (the weekend/holiday test and possibly the slot packing) ran. -/
def dayWalkLoop (c : WalkCtx) : Nat → Nat → Int → List TimeInterval × Int × List Nat
  | 0, _, found => ([], found, [])
  | rem + 1, d, found =>
    if found < c.daysToSearch ∧ (d : Int) < c.endDay then
      if eligible c d then
        let freeSlots := findFreeSlots c.busySlots (dayStartMs c d) (dayEndMs c d) c.meetingLength
        if freeSlots.length > 0 then
          let r := dayWalkLoop c rem (d + 1) (found + 1)
          (jsSliceTo c.slotsPerDay freeSlots ++ r.1, r.2.1, d :: r.2.2)
        else
          let r := dayWalkLoop c rem (d + 1) found
          (r.1, r.2.1, d :: r.2.2)
      else
        let r := dayWalkLoop c rem (d + 1) found
        (r.1, r.2.1, d :: r.2.2)
    else ([], found, [])

/-- Run the day-walk from the start date with counter 0.  `endDay.toNat` days
of recursion budget are exactly enough: the guard `dayPointer < endDate`
stops the loop at the same point the budget would. -/
def dayWalk (c : WalkCtx) : List TimeInterval × Int × List Nat :=
  dayWalkLoop c c.endDay.toNat 0 0

/-- Transcription of the complete in-memory computation of
`handleMeetingSuggestion` (src/index.ts lines 124-187) given the fetched
busy data: resolve defaults and the start date, drop busy entries missing an
endpoint (lines 153-155), and run the day-walk.  `startWeekday` and `fmt`
supply the two calendar facts about the resolved start date (its weekday and
the date-string formatting of each following day) that the model does not
recompute from the instant. -/
def suggestMeetings (args : Args) (rawBusy : List RawSlot) (startWeekday : Nat)
    (fmt : Nat → String) (now : Int) : List TimeInterval :=
  let c := resolveConfig args
  let startMs := resolveStartDate args.startDate now
  let busySlots := rawBusy.filterMap fun r =>
    match r.start, r.stop with
    | some a, some b => some ⟨a, b⟩
    | _, _ => none
  let ctx : WalkCtx :=
    { startWeekday := startWeekday, fmt := fmt, bankHolidays := c.bankHolidays,
      busySlots := busySlots, startMs := startMs,
      workStartHour := c.workStartHour, workEndHour := c.workEndHour,
      meetingLength := c.meetingLength, slotsPerDay := c.slotsPerDay,
      daysToSearch := c.daysToSearch, endDay := c.maxDaysToLookAhead }
  (dayWalk ctx).1

/-- C7: start-date resolution.  An explicit start instant is floored to its
local midnight with no one-day forward skip; an absent start date resolves to
the local midnight of the current day plus one day (tomorrow). -/
theorem resolveStartDate_explicit_no_skip_default_tomorrow :
    (∀ t now : Int, resolveStartDate (some t) now = t - t % msPerDay) ∧
    (∀ now : Int, resolveStartDate none now = (now - now % msPerDay) + msPerDay) := by
  constructor
  · intro t now
    simp [resolveStartDate]
  · intro now
    have h1 : resolveStartDate none now =
        (now + 86400000) - (now + 86400000) % 86400000 := by
      simp [resolveStartDate, msPerDay]
    rw [h1, msPerDay]
    omega

/-- C5 counterexample: a request with a negative meeting length AND an empty
calendar-ID set does not produce a ConfigurationError; the handler proceeds
to the free/busy fetch (with an empty item list). -/
theorem handlePre_invalid_request_reaches_fetch :
    handleMeetingSuggestionPre
        { meetingLengthMinutes := some (-5), calendarIds := some [] } 0 =
      .ok { timeMin := 86400000, timeMax := 2678400000,
            timezone := ("America/Sao_Paulo"), items := [] } := rfl

/-- C5 amended: the handler performs no request validation at all.  Every
request — including one with a non-positive meeting length or an empty
calendar-ID set — reaches the free/busy fetch; an explicit
`meetingLengthMinutes = 0` is silently replaced by the default 60 through JS
truthiness, while an explicitly empty `calendarIds` array is kept as-is. -/
theorem handlePre_never_returns_configuration_error (args : Args) (now : Int) :
    (handleMeetingSuggestionPre args now).isOk = true ∧
    (resolveConfig { args with calendarIds := some [] }).calendarIds = [] ∧
    (resolveConfig { args with meetingLengthMinutes := some 0 }).meetingLength = 60 :=
  ⟨rfl, rfl, rfl⟩

/-- C2 counterexample: on a free 9:00-17:00 day (480 minutes) with 60-minute
meetings, the claim demands `floor(480 / 60) = 8` back-to-back slots, but
`findFreeSlots` packs at most ONE slot per gap and returns a single slot. -/
theorem findFreeSlots_empty_busy_not_floor_packed :
    findFreeSlots [] 0 28800000 60 = [⟨0, 3600000⟩] ∧
    (findFreeSlots [] 0 28800000 60).length ≠ 8 := by decide

/-- C2 amended: each qualifying gap yields exactly one slot starting at the
cursor.  In particular, on a day with no intersecting busy intervals exactly
one slot is produced — starting exactly at `dayStart` — when the working
window is at least one meeting length long, and none otherwise. -/
theorem findFreeSlots_empty_busy_single_slot (s e len : Int)
    (_hlen : 0 < len) (hse : s < e) :
    findFreeSlots [] s e len =
      if len * 60000 ≤ e - s then [⟨s, s + len * 60000⟩] else [] := by
  simp [findFreeSlots, packLoop, hse, ge_iff_le]

/-- Witness for the amended C2 theorem at a concrete free 8-hour day. -/
theorem findFreeSlots_empty_busy_single_slot_witness :
    ((0 : Int) < 60 ∧ (0 : Int) < 28800000) ∧
      findFreeSlots [] 0 28800000 60 =
        if (60 : Int) * 60000 ≤ 28800000 - 0 then [⟨0, 0 + 60 * 60000⟩] else [] :=
  ⟨⟨by decide, by decide⟩,
    findFreeSlots_empty_busy_single_slot 0 28800000 60 (by decide) (by decide)⟩

/-- C4: evaluation of `findFreeSlots` at non-positive meeting lengths.  The
specification requires that no slots are ever produced, but the source's gap
test `gapMinutes >= meetingLengthMinutes` is vacuous for non-positive
lengths, so a degenerate slot (duration zero or negative — `end` not after
`start`) is emitted for the gap.  (The repository's variant files hang
instead: variant 0 computes `Math.floor(gap / 0) = Infinity` slots to add,
and variant 1's cursor `while` loop stops advancing.) -/
theorem findFreeSlots_nonpositive_length_emits_degenerate_slot :
    findFreeSlots [] 0 28800000 0 = [⟨0, 0⟩] ∧
    findFreeSlots [] 0 28800000 (-5) = [⟨0, -300000⟩] := by decide

/-- C9: with an explicit start date the whole computation is independent of
the wall clock — two invocations with identical request fields, identical
fetched busy data, and identical calendar facts about the start date yield
identical output sequences at any two clock instants. -/
theorem suggestMeetings_deterministic_explicit_start (args : Args)
    (rawBusy : List RawSlot) (startWeekday : Nat) (fmt : Nat → String)
    (t now₁ now₂ : Int) (h : args.startDate = some t) :
    suggestMeetings args rawBusy startWeekday fmt now₁ =
      suggestMeetings args rawBusy startWeekday fmt now₂ := by
  simp [suggestMeetings, resolveStartDate, h]

/-- Witness for the determinism theorem at a concrete request and two
distinct clock instants. -/
theorem suggestMeetings_deterministic_explicit_start_witness :
    ({ startDate := some 0 } : Args).startDate = some 0 ∧
      suggestMeetings { startDate := some 0 } [] 1 (fun _ => "") 0 =
        suggestMeetings { startDate := some 0 } [] 1 (fun _ => "") 86400000 :=
  ⟨rfl, suggestMeetings_deterministic_explicit_start { startDate := some 0 } []
    1 (fun _ => "") 0 0 86400000 rfl⟩

/-- C10: a numeric field explicitly set to 0 is indistinguishable from an
absent field, because the `||` defaulting treats the falsy 0 like `undefined`:
for each of `slotsPerDay`, `daysToSearch`, `maxDaysToLookAhead` and
`meetingLengthMinutes`, the output with the field set to 0 equals the output
with the field omitted (and the resolved value is the default 1, 3, 30, 60
respectively). -/
theorem suggestMeetings_zero_field_equals_absent (args : Args)
    (rawBusy : List RawSlot) (startWeekday : Nat) (fmt : Nat → String)
    (now : Int) :
    (suggestMeetings { args with slotsPerDay := some 0 } rawBusy startWeekday fmt now =
        suggestMeetings { args with slotsPerDay := none } rawBusy startWeekday fmt now) ∧
    (suggestMeetings { args with daysToSearch := some 0 } rawBusy startWeekday fmt now =
        suggestMeetings { args with daysToSearch := none } rawBusy startWeekday fmt now) ∧
    (suggestMeetings { args with maxDaysToLookAhead := some 0 } rawBusy startWeekday fmt now =
        suggestMeetings { args with maxDaysToLookAhead := none } rawBusy startWeekday fmt now) ∧
    (suggestMeetings { args with meetingLengthMinutes := some 0 } rawBusy startWeekday fmt now =
        suggestMeetings { args with meetingLengthMinutes := none } rawBusy startWeekday fmt now) :=
  ⟨rfl, rfl, rfl, rfl⟩

/-- Day-walk context whose every working window is fully covered by one busy
interval: the walk starts on a Monday (`startWeekday = 1`), the horizon is 7
days, and a single busy interval spans the whole week.  The defaults
`meetingLength = 60`, `slotsPerDay = 1`, `daysToSearch = 3`, working hours
9-17, are those of the handler. -/
def blockedCtx : WalkCtx where
  startWeekday := 1
  fmt := fun _ => ""
  bankHolidays := []
  busySlots := [⟨0, 604800000⟩]
  startMs := 0
  workStartHour := 9
  workEndHour := 17
  meetingLength := 60
  slotsPerDay := 1
  daysToSearch := 3
  endDay := 7

/-- C1 counterexample: with `daysToSearch = 3` and busy data that fully
blocks every day, the walk does NOT stop after 3 eligible working days and
does NOT increment `daysWithSlotsFound` on them: it examines all 7 horizon
days — 5 of them eligible working days (Monday through Friday) — leaves the
counter at 0 rather than 3, and returns an empty slot sequence. -/
theorem dayWalk_fully_blocked_counts_nothing :
    (dayWalk blockedCtx).1 = [] ∧ (dayWalk blockedCtx).2.1 = 0 ∧
    ((dayWalk blockedCtx).2.2.filter fun d => eligible blockedCtx d) =
      [0, 1, 2, 3, 4] ∧
    blockedCtx.daysToSearch = 3 := by decide

/-- C1 amended: `daysWithSlotsFound` is incremented only for eligible days
whose slot packing produced at least one slot.  When every day examined by
the walk yields no free slots, the counter never moves and the suggestion
list stays empty — the walk keeps examining days until the horizon is
exhausted instead of stopping after `daysToSearch` eligible days. -/
theorem dayWalkLoop_unproductive_days_never_count (c : WalkCtx) (rem d : Nat)
    (found : Int)
    (h : ∀ i, i < rem →
      findFreeSlots c.busySlots (dayStartMs c (d + i)) (dayEndMs c (d + i))
        c.meetingLength = []) :
    (dayWalkLoop c rem d found).1 = [] ∧ (dayWalkLoop c rem d found).2.1 = found := by
  induction rem generalizing d found with
  | zero => simp [dayWalkLoop]
  | succ n ih =>
    have h0 : findFreeSlots c.busySlots (dayStartMs c d) (dayEndMs c d)
        c.meetingLength = [] := by
      have hx := h 0 (Nat.succ_pos n)
      simpa using hx
    have hrest : ∀ i, i < n →
        findFreeSlots c.busySlots (dayStartMs c (d + 1 + i)) (dayEndMs c (d + 1 + i))
          c.meetingLength = [] := by
      intro i hi
      have hx := h (i + 1) (by omega)
      have he : d + (i + 1) = d + 1 + i := by omega
      rwa [he] at hx
    by_cases hg : found < c.daysToSearch ∧ (d : Int) < c.endDay
    · by_cases hel : eligible c d
      · simpa [dayWalkLoop, hg, hel, h0] using ih (d + 1) found hrest
      · simpa [dayWalkLoop, hg, hel] using ih (d + 1) found hrest
    · simp [dayWalkLoop, hg]

/-- Witness for the amended C1 theorem: the fully blocked week leaves the
counter at 0 and the output empty (the hypothesis that each of the 7 days
packs no slots is discharged by evaluation). -/
theorem dayWalkLoop_unproductive_days_never_count_witness :
    (dayWalkLoop blockedCtx 7 0 0).1 = [] ∧
      (dayWalkLoop blockedCtx 7 0 0).2.1 = 0 :=
  dayWalkLoop_unproductive_days_never_count blockedCtx 7 0 0 (by decide)

/-- C6: the day-walk never examines a day at or beyond the horizon end.
Every day index for which the loop body runs (the weekend/holiday test and
possibly the slot packing) lies between the current pointer and `endDay`,
the end-exclusive day offset of `endDate = startDate + maxDaysToLookAhead
days`. -/
theorem dayWalkLoop_examined_days_in_horizon (c : WalkCtx) (rem d : Nat)
    (found : Int) :
    ∀ e ∈ (dayWalkLoop c rem d found).2.2, d ≤ e ∧ (e : Int) < c.endDay := by
  induction rem generalizing d found with
  | zero =>
    intro e he
    simp [dayWalkLoop] at he
  | succ n ih =>
    intro e he
    by_cases hg : found < c.daysToSearch ∧ (d : Int) < c.endDay
    · by_cases hel : eligible c d
      · by_cases hlen :
          (findFreeSlots c.busySlots (dayStartMs c d) (dayEndMs c d)
            c.meetingLength).length > 0
        · simp [dayWalkLoop, hg, hel, hlen] at he
          rcases he with rfl | he
          · exact ⟨le_refl _, hg.2⟩
          · have hx := ih (d + 1) (found + 1) e he
            exact ⟨by omega, hx.2⟩
        · simp [dayWalkLoop, hg, hel, hlen] at he
          rcases he with rfl | he
          · exact ⟨le_refl _, hg.2⟩
          · have hx := ih (d + 1) found e he
            exact ⟨by omega, hx.2⟩
      · simp [dayWalkLoop, hg, hel] at he
        rcases he with rfl | he
        · exact ⟨le_refl _, hg.2⟩
        · have hx := ih (d + 1) found e he
          exact ⟨by omega, hx.2⟩
    · simp [dayWalkLoop, hg] at he

/-- Witness for the horizon theorem: day 0 is examined by the blocked walk
and lies inside the 7-day horizon. -/
theorem dayWalkLoop_examined_days_in_horizon_witness :
    0 ∈ (dayWalkLoop blockedCtx 7 0 0).2.2 ∧
      (0 ≤ 0 ∧ ((0 : Nat) : Int) < blockedCtx.endDay) :=
  ⟨by decide, dayWalkLoop_examined_days_in_horizon blockedCtx 7 0 0 0 (by decide)⟩

/-- C8: a day that is a Saturday or Sunday, or whose formatted date is in the
bank-holiday set, is skipped entirely: the loop body records the day as
examined and moves to the next day with the suggestion list and the
`daysWithSlotsFound` counter exactly those of the remaining walk — nothing is
added for the skipped day. -/
theorem dayWalkLoop_weekend_holiday_skipped (c : WalkCtx) (rem d : Nat)
    (found : Int) (hg1 : found < c.daysToSearch) (hg2 : (d : Int) < c.endDay)
    (h : (c.startWeekday + d) % 7 = 0 ∨ (c.startWeekday + d) % 7 = 6 ∨
      c.bankHolidays.contains (c.fmt d) = true) :
    dayWalkLoop c (rem + 1) d found =
      ((dayWalkLoop c rem (d + 1) found).1, (dayWalkLoop c rem (d + 1) found).2.1,
        d :: (dayWalkLoop c rem (d + 1) found).2.2) := by
  have hel : eligible c d = false := by
    unfold eligible
    rcases h with h | h | h
    · simp [h]
    · simp [h]
    · have hm : c.fmt d ∈ c.bankHolidays := List.mem_of_elem_eq_true h
      simp [hm]
  simp [dayWalkLoop, hg1, hg2, hel]

/-- Witness for the skip theorem: day 5 of the blocked walk is a Saturday
(`(1 + 5) % 7 = 6`) and is skipped. -/
theorem dayWalkLoop_weekend_holiday_skipped_witness :
    ((0 : Int) < blockedCtx.daysToSearch ∧ ((5 : Nat) : Int) < blockedCtx.endDay ∧
        (blockedCtx.startWeekday + 5) % 7 = 6) ∧
      dayWalkLoop blockedCtx 2 5 0 =
        ((dayWalkLoop blockedCtx 1 6 0).1, (dayWalkLoop blockedCtx 1 6 0).2.1,
          5 :: (dayWalkLoop blockedCtx 1 6 0).2.2) :=
  ⟨⟨by decide, by decide, by decide⟩,
    dayWalkLoop_weekend_holiday_skipped blockedCtx 1 5 0 (by decide) (by decide)
      (Or.inr (Or.inl (by decide)))⟩

/-- Invariant of the packing loop: every slot it emits starts at or after the
cursor, has exactly length `L`, ends by `dayEnd`, and is disjoint from every
busy interval of the (sorted, window-intersecting) list — the slot packed
before a busy interval ends by that interval's start, and the cursor advance
`pointer = max(pointer, busyEnd)` keeps later slots past every processed
interval, which also coalesces overlapping or adjacent busy intervals. -/
theorem packLoop_spec (dayEnd L : Int) :
    ∀ (bs : List TimeInterval) (p : Int),
      List.Pairwise busyLE bs →
      (∀ b ∈ bs, b.start < dayEnd) →
      ∀ slot ∈ packLoop dayEnd L bs p,
        p ≤ slot.start ∧ slot.stop = slot.start + L ∧ slot.stop ≤ dayEnd ∧
          ∀ b ∈ bs, slot.stop ≤ b.start ∨ b.stop ≤ slot.start := by
  intro bs
  induction bs with
  | nil =>
    intro p _ _ slot hslot
    simp only [packLoop] at hslot
    by_cases h1 : p < dayEnd
    · rw [if_pos h1] at hslot
      by_cases h2 : dayEnd - p ≥ L
      · rw [if_pos h2] at hslot
        rw [List.mem_singleton] at hslot
        subst hslot
        exact ⟨le_refl _, rfl, by show p + L ≤ dayEnd; omega, by simp⟩
      · rw [if_neg h2] at hslot
        simp at hslot
    · rw [if_neg h1] at hslot
      simp at hslot
  | cons b rest ih =>
    intro p hpw hlt slot hslot
    simp only [packLoop] at hslot
    rw [List.mem_append] at hslot
    have hbstart : b.start < dayEnd := hlt b (List.mem_cons_self b rest)
    rcases hslot with hpre | hrec
    · by_cases h1 : p < b.start
      · rw [if_pos h1] at hpre
        by_cases h2 : b.start - p ≥ L
        · rw [if_pos h2] at hpre
          rw [List.mem_singleton] at hpre
          subst hpre
          refine ⟨le_refl _, rfl, by show p + L ≤ dayEnd; omega, ?_⟩
          intro b' hb'
          rcases List.mem_cons.mp hb' with rfl | hb'
          · left
            show p + L ≤ b'.start
            omega
          · left
            have hle : busyLE b b' := (List.pairwise_cons.mp hpw).1 b' hb'
            unfold busyLE at hle
            show p + L ≤ b'.start
            omega
        · rw [if_neg h2] at hpre
          simp at hpre
      · rw [if_neg h1] at hpre
        simp at hpre
    · set p2 := if p < b.stop then b.stop else p with hp2
      have hple : p ≤ p2 := by rw [hp2]; split <;> omega
      have hbe : b.stop ≤ p2 := by rw [hp2]; split <;> omega
      obtain ⟨hps, hstop, hde, hall⟩ :=
        ih p2 (List.pairwise_cons.mp hpw).2
          (fun b' hb' => hlt b' (List.mem_cons_of_mem b hb')) slot hrec
      refine ⟨le_trans hple hps, hstop, hde, ?_⟩
      intro b' hb'
      rcases List.mem_cons.mp hb' with rfl | hb'
      · right
        exact le_trans hbe hps
      · exact hall b' hb'

/-- C3: every slot returned by `findFreeSlots` lies entirely inside the
working window `[dayStart, dayEnd)`, has exactly the requested length, and is
disjoint from every busy interval of the input — in particular from every
busy interval intersecting the window — with no assumption that the busy
intervals are pairwise disjoint or non-adjacent. -/
theorem findFreeSlots_within_window_and_busy_disjoint
    (busySlots : List TimeInterval) (dayStart dayEnd meetingLengthMinutes : Int)
    (_hlen : 0 < meetingLengthMinutes) (_hwin : dayStart < dayEnd) :
    ∀ slot ∈ findFreeSlots busySlots dayStart dayEnd meetingLengthMinutes,
      (dayStart ≤ slot.start ∧ slot.stop ≤ dayEnd ∧
          slot.stop = slot.start + meetingLengthMinutes * 60000) ∧
        ∀ b ∈ busySlots, slot.stop ≤ b.start ∨ b.stop ≤ slot.start := by
  intro slot hslot
  unfold findFreeSlots at hslot
  have hsorted : List.Pairwise busyLE
      (List.insertionSort busyLE
        (busySlots.filter fun s => s.start < dayEnd && s.stop > dayStart)) :=
    List.sorted_insertionSort busyLE _
  have hmem : ∀ x : TimeInterval,
      x ∈ List.insertionSort busyLE
          (busySlots.filter fun s => s.start < dayEnd && s.stop > dayStart) ↔
        x ∈ busySlots.filter fun s => s.start < dayEnd && s.stop > dayStart :=
    fun x => (List.perm_insertionSort busyLE _).mem_iff
  have hltall : ∀ b ∈ List.insertionSort busyLE
      (busySlots.filter fun s => s.start < dayEnd && s.stop > dayStart),
      b.start < dayEnd := by
    intro b hb
    have hbf := (hmem b).mp hb
    rw [List.mem_filter] at hbf
    have hx := hbf.2
    simp at hx
    exact hx.1
  obtain ⟨hps, hstop, hde, hall⟩ :=
    packLoop_spec dayEnd (meetingLengthMinutes * 60000) _ dayStart hsorted hltall
      slot hslot
  refine ⟨⟨hps, hde, hstop⟩, ?_⟩
  intro b hb
  by_cases hbs : b.start < dayEnd ∧ b.stop > dayStart
  · have hbf : b ∈ busySlots.filter fun s => s.start < dayEnd && s.stop > dayStart :=
      List.mem_filter.mpr ⟨hb, by simp [hbs.1, hbs.2]⟩
    exact hall b ((hmem b).mpr hbf)
  · rw [not_and_or] at hbs
    rcases hbs with hbs | hbs
    · left; omega
    · right; omega

/-- Witness for C3 at a concrete day: working window 9:00-17:00, one busy
interval 10:00-11:00, meeting length 60 minutes; the slot 9:00-10:00 is in
the output, lies in the window, and is disjoint from the busy interval. -/
theorem findFreeSlots_within_window_and_busy_disjoint_witness :
    ((0 : Int) < 60 ∧ (32400000 : Int) < 61200000 ∧
        (⟨32400000, 36000000⟩ : TimeInterval) ∈
          findFreeSlots [⟨36000000, 39600000⟩] 32400000 61200000 60) ∧
      ((32400000 : Int) ≤ 32400000 ∧ (36000000 : Int) ≤ 61200000 ∧
          (36000000 : Int) = 32400000 + 60 * 60000) ∧
        ((36000000 : Int) ≤ 36000000 ∨ (39600000 : Int) ≤ 32400000) :=
  ⟨⟨by decide, by decide, by decide⟩,
    (findFreeSlots_within_window_and_busy_disjoint [⟨36000000, 39600000⟩]
        32400000 61200000 60 (by decide) (by decide) ⟨32400000, 36000000⟩
        (by decide)).1,
    (findFreeSlots_within_window_and_busy_disjoint [⟨36000000, 39600000⟩]
        32400000 61200000 60 (by decide) (by decide) ⟨32400000, 36000000⟩
        (by decide)).2 ⟨36000000, 39600000⟩ (by decide)⟩
